import Mathlib

set_option linter.unusedVariables false

/-!
Shallow embedding of `app.py` (Caveman Article Agent, a Streamlit article
generator).  The program is a linear orchestration pipeline: generate an
outline, then an article, then a header image (Freepik search with DALL-E
fallback), then a resource list, publishing a `generated_content` dict into
the session state and offering a markdown export.

External calls are modelled by oracle outcomes (`Except String _`: `ok` is
the value the remote service returned, `error` is a raised exception that
the source catches).  Python truthiness on strings (`if outline:`) is
modelled by `pyTruthy`/`pyTruthyStr`.  Every Streamlit message the flow
emits (`st.error`, `st.warning`, `st.info`, `st.success`) is collected in
a `Msg` list, and every network call actually attempted is recorded in a
`calls` trace, so "client X is never invoked" becomes a statement about
that trace.
-/

namespace ArticleAgent

/-- A JSON value, as produced by `response.json()` in `get_freepik_image`.
Leaves that the code extracts (`preview.get("url")`) are modelled as
strings; `null` models Python `None`. -/
inductive Json where
  | null : Json
  | str : String → Json
  | arr : List Json → Json
  | obj : List (String × Json) → Json

/-- Python `d.get(k)` / `d[k]` on a dict: the value when `j` is an object
containing key `k`, otherwise `none`.  (On a non-dict the source's dynamic
`in` test is false or the access raises and is caught by the surrounding
`except`, which also yields `None`; both are `none` here.) -/
def Json.objGet : Json → String → Option Json
  | Json.obj fields, k => fields.lookup k
  | _, _ => none

/-- The string carried by an optional JSON value, when it is a string. -/
def Json.strVal : Option Json → Option String
  | some (Json.str s) => some s
  | _ => none

/-- Python truthiness of an optional string (`None` and `""` are falsy). -/
def pyTruthy : Option String → Bool
  | none => false
  | some s => !(s == "")

/-- Python truthiness of a string (`""` is falsy). -/
def pyTruthyStr (s : String) : Bool := !(s == "")

/-- A Streamlit message emitted during a run. -/
inductive Msg where
  | error : String → Msg
  | warning : String → Msg
  | info : String → Msg
  | success : String → Msg
deriving DecidableEq, Repr

/-- Outcome of one client-function call: the Python return value (a string
or `None`), the messages it emitted, and the network calls it attempted. -/
structure ClientOutcome where
  value : Option String
  msgs : List Msg
  calls : List String
deriving DecidableEq, Repr

/-- The HTTP response `requests.get` delivers in `get_freepik_image`:
a status code and the body; `response.json()` may itself raise, hence
`Except` for the body. -/
structure HttpResp where
  status_code : Nat
  body : Except String Json

/-- `item["attributes"]["preview"]` (resp. `["images"]["preview"]`):
`some` exactly when the source's `key in item and "preview" in item[key]`
guard holds, carrying the preview value. -/
def previewUnder (item : Json) (key : String) : Option Json :=
  match item.objGet key with
  | some sub => sub.objGet "preview"
  | none => none

/-- Lines 52-60 of `app.py`: extract the preview URL from a decoded 200
response body, probing the `attributes` nesting shape first and the
`images` shape second; `none` when neither yields a URL. -/
def extractPreviewUrl (data : Json) : Option String :=
  match data.objGet "data" with
  | some (Json.arr (item :: _)) =>
    match previewUnder item "attributes" with
    | some prev => Json.strVal (prev.objGet "url")
    | none =>
      match previewUnder item "images" with
      | some prev => Json.strVal (prev.objGet "url")
      | none => none
  | _ => none

/-- `get_freepik_image(title)`: returns `None` without a network call when
the Freepik credential is missing (falsy); otherwise performs the GET
(recorded as `"freepik_search"`).  A transport exception or a JSON-decode
exception is caught, warned about, and converted to `None`; a non-200
status or a body without a preview URL yields `None`. -/
def get_freepik_image (title : String) (freepik_api_key : Option String)
    (transport : Except String HttpResp) : ClientOutcome :=
  if !pyTruthy freepik_api_key then
    { value := none, msgs := [], calls := [] }
  else
    match transport with
    | Except.error e =>
      { value := none, msgs := [Msg.warning ("Freepik API error: " ++ e)],
        calls := ["freepik_search"] }
    | Except.ok resp =>
      if resp.status_code == 200 then
        match resp.body with
        | Except.error e =>
          { value := none, msgs := [Msg.warning ("Freepik API error: " ++ e)],
            calls := ["freepik_search"] }
        | Except.ok data =>
          { value := extractPreviewUrl data, msgs := [], calls := ["freepik_search"] }
      else
        { value := none, msgs := [], calls := ["freepik_search"] }

/-- `generate_dalle_image(title)`: one image-generation call (recorded as
`"dalle_generate"`); an exception is caught, reported via `st.error`, and
converted to `None`. -/
def generate_dalle_image (title : String) (call : Except String String) : ClientOutcome :=
  match call with
  | Except.ok url => { value := some url, msgs := [], calls := ["dalle_generate"] }
  | Except.error e =>
    { value := none, msgs := [Msg.error ("DALL-E generation error: " ++ e)],
      calls := ["dalle_generate"] }

/-- `generate_outline(title, word_range)`: one chat-completion call
(recorded as `"outline"`); an exception becomes `st.error` plus `None`. -/
def generate_outline (title : String) (word_range : String)
    (call : Except String String) : ClientOutcome :=
  match call with
  | Except.ok content => { value := some content, msgs := [], calls := ["outline"] }
  | Except.error e =>
    { value := none, msgs := [Msg.error ("Outline generation error: " ++ e)],
      calls := ["outline"] }

/-- `write_article(title, outline, word_range)`: one chat-completion call
(recorded as `"article"`); an exception becomes `st.error` plus `None`. -/
def write_article (title : String) (outline : String) (word_range : String)
    (call : Except String String) : ClientOutcome :=
  match call with
  | Except.ok content => { value := some content, msgs := [], calls := ["article"] }
  | Except.error e =>
    { value := none, msgs := [Msg.error ("Article writing error: " ++ e)],
      calls := ["article"] }

/-- `suggest_resources(title)`: one chat-completion call (recorded as
`"resources"`); an exception becomes `st.error` plus `None`. -/
def suggest_resources (title : String) (call : Except String String) : ClientOutcome :=
  match call with
  | Except.ok content => { value := some content, msgs := [], calls := ["resources"] }
  | Except.error e =>
    { value := none, msgs := [Msg.error ("Resource suggestion error: " ++ e)],
      calls := ["resources"] }

/-- Result of `generate_header_image`: the `(image_url, image_source)`
pair the source returns, plus emitted messages and attempted calls. -/
structure ImageOutcome where
  image_url : Option String
  image_source : Option String
  msgs : List Msg
  calls : List String
deriving DecidableEq, Repr

/-- `generate_header_image(title)`: Freepik first; if its value is truthy
return it with source `"Freepik"` (DALL-E never called); otherwise call
DALL-E, returning its value with source `"DALL-E"` when truthy, else
`(None, None)`. -/
def generate_header_image (title : String) (freepik_api_key : Option String)
    (freepikTransport : Except String HttpResp)
    (dalleCall : Except String String) : ImageOutcome :=
  let f := get_freepik_image title freepik_api_key freepikTransport
  if pyTruthy f.value then
    { image_url := f.value, image_source := some "Freepik", msgs := f.msgs, calls := f.calls }
  else
    let d := generate_dalle_image title dalleCall
    if pyTruthy d.value then
      { image_url := d.value, image_source := some "DALL-E",
        msgs := f.msgs ++ d.msgs, calls := f.calls ++ d.calls }
    else
      { image_url := none, image_source := none,
        msgs := f.msgs ++ d.msgs, calls := f.calls ++ d.calls }

/-- The `generated_content` dict.  Each field is a dict slot: `none` means
the key is absent, `some none` means the key is present holding Python
`None`, `some (some s)` means the key is present holding string `s`. -/
structure Content where
  outline : Option (Option String) := none
  article : Option (Option String) := none
  image_url : Option (Option String) := none
  image_source : Option (Option String) := none
  resources : Option (Option String) := none
deriving DecidableEq, Repr

/-- Environment configuration read by the app: `OPENAI_API_KEY` and
`FREEPIK_API_KEY` (each possibly unset or empty). -/
structure Env where
  openai_api_key : Option String
  freepik_api_key : Option String

/-- The oracle outcomes of the five external services for one run. -/
structure Clients where
  outlineCall : Except String String
  articleCall : Except String String
  freepikTransport : Except String HttpResp
  dalleCall : Except String String
  resourcesCall : Except String String

/-- Observable outcome of one press of the Generate button:
`localContent` is the run's own `generated_content` dict at the end of the
run body (`none` when validation failed before the dict was created),
`session` is `st.session_state.generated_content` afterwards, `msgs` the
emitted messages and `calls` the attempted network calls, in order. -/
structure RunOutput where
  localContent : Option Content
  session : Option Content
  msgs : List Msg
  calls : List String
deriving DecidableEq, Repr

/-- Lines 180-233 of `app.py`: the generation flow run on a button press.
`prev` is the session state before the run (initially `None`).  Validation
failures leave the session untouched; the outline and article steps
short-circuit the run on falsy results; the image and resources steps
cannot abort it.  Only the full success path assigns
`st.session_state.generated_content`. -/
def runPipeline (env : Env) (title : String) (word_range : String)
    (cl : Clients) (prev : Option Content) : RunOutput :=
  if !pyTruthyStr title || !pyTruthyStr word_range then
    { localContent := none, session := prev,
      msgs := [Msg.error "⚠️ Please fill in both the title and word range fields."],
      calls := [] }
  else if !pyTruthy env.openai_api_key then
    { localContent := none, session := prev,
      msgs := [Msg.error "⚠️ OpenAI API key not found. Please set OPENAI_API_KEY in your environment variables."],
      calls := [] }
  else
    let o := generate_outline title word_range cl.outlineCall
    if pyTruthy o.value then
      let c1 : Content := { outline := some o.value }
      let a := write_article title (o.value.getD "") word_range cl.articleCall
      if pyTruthy a.value then
        let c2 : Content := { c1 with article := some a.value }
        let img := generate_header_image title env.freepik_api_key
          cl.freepikTransport cl.dalleCall
        let c3 : Content :=
          if pyTruthy img.image_url then
            { c2 with image_url := some img.image_url, image_source := some img.image_source }
          else
            { c2 with image_url := some none, image_source := some none }
        let warnImg : List Msg :=
          if pyTruthy img.image_url then []
          else [Msg.warning "⚠️ Could not generate header image."]
        let r := suggest_resources title cl.resourcesCall
        let c4 : Content :=
          if pyTruthy r.value then { c3 with resources := some r.value } else c3
        { localContent := some c4, session := some c4,
          msgs := [Msg.info "📋 Generating article outline..."] ++ o.msgs
            ++ [Msg.info "✍️ Writing full article..."] ++ a.msgs
            ++ [Msg.info "🖼️ Searching for header image..."] ++ img.msgs ++ warnImg
            ++ [Msg.info "📚 Gathering related resources..."] ++ r.msgs
            ++ [Msg.success "✅ Article generation complete!"],
          calls := o.calls ++ a.calls ++ img.calls ++ r.calls }
      else
        { localContent := some c1, session := prev,
          msgs := [Msg.info "📋 Generating article outline..."] ++ o.msgs
            ++ [Msg.info "✍️ Writing full article..."] ++ a.msgs
            ++ [Msg.error "❌ Failed to generate article. Please try again."],
          calls := o.calls ++ a.calls }
    else
      { localContent := some {}, session := prev,
        msgs := [Msg.info "📋 Generating article outline..."] ++ o.msgs
          ++ [Msg.error "❌ Failed to generate outline. Please try again."],
        calls := o.calls }

/-- Python `content.get(k, default)` rendered into an f-string: the stored
string, `"None"` for a stored `None` (`str(None)`), or the default when
the key is absent. -/
def pyDictGetStr (slot : Option (Option String)) (default : String) : String :=
  match slot with
  | some (some s) => s
  | some none => "None"
  | none => default

/-- Lines 266-276 of `app.py`: the markdown document assembled for the
download button from the current title and the stored content dict. -/
def download_markdown (title : String) (content : Content) : String :=
  "# " ++ title ++ "\n\n## Outline\n" ++ pyDictGetStr content.outline ""
    ++ "\n\n## Article\n" ++ pyDictGetStr content.article ""
    ++ "\n\n## Resources\n" ++ pyDictGetStr content.resources "" ++ "\n"

/-- The preview URL a 200 body yields under one nesting shape (`key` is
`"attributes"` or `"images"`): the first data item's `key.preview.url`
string, when that path exists. -/
def shapeUrl (data : Json) (key : String) : Option String :=
  match data.objGet "data" with
  | some (Json.arr (item :: _)) =>
    match previewUnder item key with
    | some prev => Json.strVal (prev.objGet "url")
    | none => none
  | _ => none

/-- The outline/article/image-source frame of a content dict: everything
except the `resources` slot. -/
def Content.frame (c : Content) :
    Option (Option String) × Option (Option String)
      × Option (Option String) × Option (Option String) :=
  (c.outline, c.article, c.image_url, c.image_source)

section Helpers

lemma pyTruthy_iff {v : Option String} :
    pyTruthy v = true ↔ ∃ s, v = some s ∧ s ≠ "" := by
  cases v with
  | none => simp [pyTruthy]
  | some s => simp [pyTruthy]

lemma outline_calls_eq (t w : String) (c : Except String String) :
    (generate_outline t w c).calls = ["outline"] := by
  cases c <;> rfl

lemma article_calls_eq (t o w : String) (c : Except String String) :
    (write_article t o w c).calls = ["article"] := by
  cases c <;> rfl

lemma resources_calls_eq (t : String) (c : Except String String) :
    (suggest_resources t c).calls = ["resources"] := by
  cases c <;> rfl

lemma freepik_calls_eq (t : String) (k : Option String) (tr : Except String HttpResp) :
    (get_freepik_image t k tr).calls = []
      ∨ (get_freepik_image t k tr).calls = ["freepik_search"] := by
  unfold get_freepik_image
  split
  · exact Or.inl rfl
  · cases tr with
    | error e => exact Or.inr rfl
    | ok resp =>
      dsimp only
      split
      · cases hb : resp.body with
        | error e => simp [hb]
        | ok data => simp [hb]
      · exact Or.inr rfl

lemma dalle_not_in_freepik_calls (t : String) (k : Option String)
    (tr : Except String HttpResp) :
    "dalle_generate" ∉ (get_freepik_image t k tr).calls := by
  rcases freepik_calls_eq t k tr with h | h <;> simp [h]

lemma extractPreviewUrl_eq_none (data : Json)
    (hA : shapeUrl data "attributes" = none) (hB : shapeUrl data "images" = none) :
    extractPreviewUrl data = none := by
  unfold shapeUrl at hA hB
  unfold extractPreviewUrl
  cases hd : data.objGet "data" with
  | none => simp
  | some j =>
    cases j with
    | null => simp
    | str s => simp
    | obj fields => simp
    | arr l =>
      cases l with
      | nil => simp
      | cons item rest =>
        rw [hd] at hA hB
        cases hp : previewUnder item "attributes" with
        | some prev => simpa [hp] using hA
        | none =>
          cases hq : previewUnder item "images" with
          | some prev => simpa [hp, hq] using hB
          | none => simp [hp, hq]

lemma header_image_url_none (t : String) (k : Option String)
    (tr : Except String HttpResp) (d : Except String String)
    (hF : pyTruthy (get_freepik_image t k tr).value = false)
    (hD : pyTruthy (generate_dalle_image t d).value = false) :
    (generate_header_image t k tr d).image_url = none := by
  simp [generate_header_image, hF, hD]

lemma image_source_some_of_truthy (t : String) (k : Option String)
    (tr : Except String HttpResp) (d : Except String String)
    (h : pyTruthy (generate_header_image t k tr d).image_url = true) :
    (∃ u, (generate_header_image t k tr d).image_url = some u ∧ u ≠ "")
      ∧ ∃ lbl, (generate_header_image t k tr d).image_source = some lbl := by
  refine ⟨pyTruthy_iff.mp h, ?_⟩
  cases hf : pyTruthy (get_freepik_image t k tr).value with
  | true => exact ⟨"Freepik", by simp [generate_header_image, hf]⟩
  | false =>
    cases hd : pyTruthy (generate_dalle_image t d).value with
    | true => exact ⟨"DALL-E", by simp [generate_header_image, hf, hd]⟩
    | false =>
      rw [header_image_url_none t k tr d hf hd] at h
      simp [pyTruthy] at h

end Helpers

/-- C1 counterexample: a Freepik 200 response whose preview URL is the
empty string.  The search yields a URL (`some ""`), yet the orchestrator
does not return it with source `"Freepik"`: it falls through and invokes
the DALL-E client. -/
def c1Body : Json :=
  Json.obj [("data", Json.arr [Json.obj
    [("attributes", Json.obj [("preview", Json.obj [("url", Json.str "")])])]])]

/-- C1 counterexample transport: status 200 carrying `c1Body`. -/
def c1Transport : Except String HttpResp :=
  Except.ok { status_code := 200, body := Except.ok c1Body }

/-- C1 (counterexample): with the empty-string preview URL the search
yields a URL (`some ""`), but `generate_header_image` neither returns it
with source label `"Freepik"` nor refrains from invoking the
image-generation client — refuting the claim as stated at this input. -/
theorem generate_header_image_empty_url_cex :
    (get_freepik_image "T" (some "k") c1Transport).value = some "" ∧
    ¬ ((generate_header_image "T" (some "k") c1Transport
          (Except.ok "https://img.example/dalle.png")).image_url = some ""
        ∧ (generate_header_image "T" (some "k") c1Transport
          (Except.ok "https://img.example/dalle.png")).image_source = some "Freepik"
        ∧ "dalle_generate" ∉ (generate_header_image "T" (some "k") c1Transport
          (Except.ok "https://img.example/dalle.png")).calls) := by
  decide

/-- C1 (amended): `generate_header_image` first consults the search
client; if it yields a truthy (non-empty) URL, that URL is returned with
source `"Freepik"` and the generation client is never invoked; if the
search yields absent or an empty URL and the generation client yields a
truthy URL, that URL is returned with source `"DALL-E"`; if both yield
absent or empty, the result is `(none, none)`. -/
theorem generate_header_image_fallback_spec (title : String)
    (k : Option String) (tr : Except String HttpResp) (d : Except String String) :
    (pyTruthy (get_freepik_image title k tr).value = true →
      (generate_header_image title k tr d).image_url
          = (get_freepik_image title k tr).value
        ∧ (generate_header_image title k tr d).image_source = some "Freepik"
        ∧ "dalle_generate" ∉ (generate_header_image title k tr d).calls) ∧
    (pyTruthy (get_freepik_image title k tr).value = false →
      pyTruthy (generate_dalle_image title d).value = true →
      (generate_header_image title k tr d).image_url
          = (generate_dalle_image title d).value
        ∧ (generate_header_image title k tr d).image_source = some "DALL-E") ∧
    (pyTruthy (get_freepik_image title k tr).value = false →
      pyTruthy (generate_dalle_image title d).value = false →
      (generate_header_image title k tr d).image_url = none
        ∧ (generate_header_image title k tr d).image_source = none) := by
  refine ⟨fun h => ?_, fun h1 h2 => ?_, fun h1 h2 => ?_⟩
  · simpa [generate_header_image, h] using dalle_not_in_freepik_calls title k tr
  · simp [generate_header_image, h1, h2]
  · simp [generate_header_image, h1, h2]

/-- C1 (witness): with the Freepik credential unset the search yields
absent, and a successful generation call is returned with source
`"DALL-E"`. -/
theorem generate_header_image_fallback_spec_witness :
    (generate_header_image "T" none (Except.error "down")
        (Except.ok "https://img.example/dalle.png")).image_url
      = some "https://img.example/dalle.png"
    ∧ (generate_header_image "T" none (Except.error "down")
        (Except.ok "https://img.example/dalle.png")).image_source = some "DALL-E" :=
  (generate_header_image_fallback_spec "T" none (Except.error "down")
    (Except.ok "https://img.example/dalle.png")).2.1 (by decide) (by decide)

/-- C4: the markdown export is a fixed template interpolating exactly the
outline, article and resources of the result under a level-1 heading of
the title, and repeated exports of the same result are identical. -/
theorem markdown_export_template (t o a r : String) (c : Content)
    (ho : c.outline = some (some o)) (ha : c.article = some (some a))
    (hr : c.resources = some (some r)) :
    download_markdown t c
        = "# " ++ t ++ "\n\n## Outline\n" ++ o ++ "\n\n## Article\n" ++ a
          ++ "\n\n## Resources\n" ++ r ++ "\n"
      ∧ download_markdown t c = download_markdown t c := by
  refine ⟨?_, rfl⟩
  simp [download_markdown, pyDictGetStr, ho, ha, hr]

/-- C4 (witness): the template at a concrete result. -/
theorem markdown_export_template_witness :
    download_markdown "T"
        { outline := some (some "O"), article := some (some "A"),
          image_url := some none, image_source := some none,
          resources := some (some "R") }
      = "# T\n\n## Outline\nO\n\n## Article\nA\n\n## Resources\nR\n"
    ∧ download_markdown "T"
        { outline := some (some "O"), article := some (some "A"),
          image_url := some none, image_source := some none,
          resources := some (some "R") }
      = download_markdown "T"
        { outline := some (some "O"), article := some (some "A"),
          image_url := some none, image_source := some none,
          resources := some (some "R") } :=
  markdown_export_template "T" "O" "A" "R"
    { outline := some (some "O"), article := some (some "A"),
      image_url := some none, image_source := some none,
      resources := some (some "R") } rfl rfl rfl

/-- C7: `get_freepik_image` always yields an optional URL: with a falsy
credential it returns `none` without attempting the network call; a
transport exception is caught and converted to `none`; and a decoded body
that yields no preview URL under either the `attributes` shape or the
`images` shape produces `none`. -/
theorem get_freepik_image_total (title : String) (k : Option String)
    (tr : Except String HttpResp) :
    (pyTruthy k = false →
      (get_freepik_image title k tr).value = none
        ∧ (get_freepik_image title k tr).calls = []) ∧
    (∀ e, tr = Except.error e → (get_freepik_image title k tr).value = none) ∧
    (∀ resp data, tr = Except.ok resp → resp.body = Except.ok data →
      shapeUrl data "attributes" = none → shapeUrl data "images" = none →
      (get_freepik_image title k tr).value = none) := by
  refine ⟨fun hk => ?_, fun e he => ?_, fun resp data hresp hbody hA hB => ?_⟩
  · simp [get_freepik_image, hk]
  · unfold get_freepik_image
    split
    · rfl
    · rw [he]
  · unfold get_freepik_image
    split
    · rfl
    · rw [hresp]
      dsimp only
      split
      · rw [hbody]
        exact extractPreviewUrl_eq_none data hA hB
      · rfl

/-- C7 (witness): a missing credential yields `none` with no network
call, and a transport exception also yields `none`. -/
theorem get_freepik_image_total_witness :
    ((get_freepik_image "T" none (Except.error "timeout")).value = none
        ∧ (get_freepik_image "T" none (Except.error "timeout")).calls = [])
      ∧ (get_freepik_image "T" (some "k") (Except.error "timeout")).value = none :=
  ⟨(get_freepik_image_total "T" none (Except.error "timeout")).1 (by decide),
    (get_freepik_image_total "T" (some "k") (Except.error "timeout")).2.1 "timeout" rfl⟩

section PipelineHelpers

lemma frame_ite_resources (b : Bool) (c : Content) (x : Option (Option String)) :
    Content.frame (if b = true then { c with resources := x } else c) = Content.frame c := by
  cases b <;> simp [Content.frame]

end PipelineHelpers

/-- C2: when validation passes but outline generation fails (falsy
result), the run's own content dict stays empty, the session is left as
it was, only the outline client was invoked, and the outline failure is
reported. -/
theorem outline_failure_short_circuit (env : Env) (title word_range : String)
    (cl : Clients) (prev : Option Content)
    (hT : pyTruthyStr title = true) (hW : pyTruthyStr word_range = true)
    (hK : pyTruthy env.openai_api_key = true)
    (hO : pyTruthy (generate_outline title word_range cl.outlineCall).value = false) :
    (runPipeline env title word_range cl prev).localContent
        = some { outline := none, article := none, image_url := none,
                 image_source := none, resources := none }
      ∧ (runPipeline env title word_range cl prev).session = prev
      ∧ (runPipeline env title word_range cl prev).calls = ["outline"]
      ∧ "article" ∉ (runPipeline env title word_range cl prev).calls
      ∧ "freepik_search" ∉ (runPipeline env title word_range cl prev).calls
      ∧ "dalle_generate" ∉ (runPipeline env title word_range cl prev).calls
      ∧ "resources" ∉ (runPipeline env title word_range cl prev).calls
      ∧ Msg.error "❌ Failed to generate outline. Please try again."
          ∈ (runPipeline env title word_range cl prev).msgs := by
  have hoc := outline_calls_eq title word_range cl.outlineCall
  simp [runPipeline, hT, hW, hK, hO, hoc]

/-- C2 (witness): concrete run with an outline exception. -/
theorem outline_failure_short_circuit_witness :
    (runPipeline ⟨some "sk", none⟩ "T" "800-1000"
        ⟨Except.error "boom", Except.ok "A", Except.error "down",
          Except.ok "https://d", Except.ok "R"⟩ none).localContent
        = some { outline := none, article := none, image_url := none,
                 image_source := none, resources := none }
      ∧ (runPipeline ⟨some "sk", none⟩ "T" "800-1000"
          ⟨Except.error "boom", Except.ok "A", Except.error "down",
            Except.ok "https://d", Except.ok "R"⟩ none).session = none
      ∧ (runPipeline ⟨some "sk", none⟩ "T" "800-1000"
          ⟨Except.error "boom", Except.ok "A", Except.error "down",
            Except.ok "https://d", Except.ok "R"⟩ none).calls = ["outline"]
      ∧ "article" ∉ (runPipeline ⟨some "sk", none⟩ "T" "800-1000"
          ⟨Except.error "boom", Except.ok "A", Except.error "down",
            Except.ok "https://d", Except.ok "R"⟩ none).calls
      ∧ "freepik_search" ∉ (runPipeline ⟨some "sk", none⟩ "T" "800-1000"
          ⟨Except.error "boom", Except.ok "A", Except.error "down",
            Except.ok "https://d", Except.ok "R"⟩ none).calls
      ∧ "dalle_generate" ∉ (runPipeline ⟨some "sk", none⟩ "T" "800-1000"
          ⟨Except.error "boom", Except.ok "A", Except.error "down",
            Except.ok "https://d", Except.ok "R"⟩ none).calls
      ∧ "resources" ∉ (runPipeline ⟨some "sk", none⟩ "T" "800-1000"
          ⟨Except.error "boom", Except.ok "A", Except.error "down",
            Except.ok "https://d", Except.ok "R"⟩ none).calls
      ∧ Msg.error "❌ Failed to generate outline. Please try again."
          ∈ (runPipeline ⟨some "sk", none⟩ "T" "800-1000"
          ⟨Except.error "boom", Except.ok "A", Except.error "down",
            Except.ok "https://d", Except.ok "R"⟩ none).msgs :=
  outline_failure_short_circuit ⟨some "sk", none⟩ "T" "800-1000"
    ⟨Except.error "boom", Except.ok "A", Except.error "down",
      Except.ok "https://d", Except.ok "R"⟩ none
    (by decide) (by decide) (by decide) (by decide)

/-- C3: when the outline succeeds but article generation fails, the run's
own content dict holds only the outline, the session is left as it was
(no partial result is published), only the outline and article clients
were invoked, and the article failure is reported. -/
theorem article_failure_short_circuit (env : Env) (title word_range : String)
    (cl : Clients) (prev : Option Content)
    (hT : pyTruthyStr title = true) (hW : pyTruthyStr word_range = true)
    (hK : pyTruthy env.openai_api_key = true)
    (hO : pyTruthy (generate_outline title word_range cl.outlineCall).value = true)
    (hA : pyTruthy (write_article title
        ((generate_outline title word_range cl.outlineCall).value.getD "")
        word_range cl.articleCall).value = false) :
    (∃ s, s ≠ "" ∧ (runPipeline env title word_range cl prev).localContent
        = some { outline := some (some s), article := none, image_url := none,
                 image_source := none, resources := none })
      ∧ (runPipeline env title word_range cl prev).session = prev
      ∧ (runPipeline env title word_range cl prev).calls = ["outline", "article"]
      ∧ "freepik_search" ∉ (runPipeline env title word_range cl prev).calls
      ∧ "dalle_generate" ∉ (runPipeline env title word_range cl prev).calls
      ∧ "resources" ∉ (runPipeline env title word_range cl prev).calls
      ∧ Msg.error "❌ Failed to generate article. Please try again."
          ∈ (runPipeline env title word_range cl prev).msgs := by
  obtain ⟨s, hs, hne⟩ := pyTruthy_iff.mp hO
  have hO' : pyTruthy (some s) = true := by rw [← hs]; exact hO
  have hA' : pyTruthy (write_article title s word_range cl.articleCall).value = false := by
    rw [hs] at hA; simpa using hA
  have hoc := outline_calls_eq title word_range cl.outlineCall
  have hac := article_calls_eq title s word_range cl.articleCall
  refine ⟨⟨s, hne, ?_⟩, ?_, ?_, ?_, ?_, ?_, ?_⟩ <;>
    simp [runPipeline, hT, hW, hK, hs, hO', hA', hoc, hac]

/-- C3 (witness): concrete run with an article exception. -/
theorem article_failure_short_circuit_witness :
    (∃ s, s ≠ "" ∧ (runPipeline ⟨some "sk", none⟩ "T" "800-1000"
        ⟨Except.ok "O", Except.error "boom", Except.error "down",
          Except.ok "https://d", Except.ok "R"⟩ none).localContent
        = some { outline := some (some s), article := none, image_url := none,
                 image_source := none, resources := none })
      ∧ (runPipeline ⟨some "sk", none⟩ "T" "800-1000"
          ⟨Except.ok "O", Except.error "boom", Except.error "down",
            Except.ok "https://d", Except.ok "R"⟩ none).session = none
      ∧ (runPipeline ⟨some "sk", none⟩ "T" "800-1000"
          ⟨Except.ok "O", Except.error "boom", Except.error "down",
            Except.ok "https://d", Except.ok "R"⟩ none).calls = ["outline", "article"]
      ∧ "freepik_search" ∉ (runPipeline ⟨some "sk", none⟩ "T" "800-1000"
          ⟨Except.ok "O", Except.error "boom", Except.error "down",
            Except.ok "https://d", Except.ok "R"⟩ none).calls
      ∧ "dalle_generate" ∉ (runPipeline ⟨some "sk", none⟩ "T" "800-1000"
          ⟨Except.ok "O", Except.error "boom", Except.error "down",
            Except.ok "https://d", Except.ok "R"⟩ none).calls
      ∧ "resources" ∉ (runPipeline ⟨some "sk", none⟩ "T" "800-1000"
          ⟨Except.ok "O", Except.error "boom", Except.error "down",
            Except.ok "https://d", Except.ok "R"⟩ none).calls
      ∧ Msg.error "❌ Failed to generate article. Please try again."
          ∈ (runPipeline ⟨some "sk", none⟩ "T" "800-1000"
          ⟨Except.ok "O", Except.error "boom", Except.error "down",
            Except.ok "https://d", Except.ok "R"⟩ none).msgs :=
  article_failure_short_circuit ⟨some "sk", none⟩ "T" "800-1000"
    ⟨Except.ok "O", Except.error "boom", Except.error "down",
      Except.ok "https://d", Except.ok "R"⟩ none
    (by decide) (by decide) (by decide) (by decide) (by decide)

/-- C5: a run ending in outline or article failure leaves the stored
session result untouched, and the session result changes only when both
the outline and the article step succeeded. -/
theorem fatal_error_atomicity (env : Env) (title word_range : String)
    (cl : Clients) (prev : Option Content) :
    ((pyTruthy (generate_outline title word_range cl.outlineCall).value = false
        ∨ pyTruthy (write_article title
            ((generate_outline title word_range cl.outlineCall).value.getD "")
            word_range cl.articleCall).value = false) →
      (runPipeline env title word_range cl prev).session = prev) ∧
    ((runPipeline env title word_range cl prev).session ≠ prev →
      pyTruthy (generate_outline title word_range cl.outlineCall).value = true
        ∧ pyTruthy (write_article title
            ((generate_outline title word_range cl.outlineCall).value.getD "")
            word_range cl.articleCall).value = true) := by
  by_cases hV : (!pyTruthyStr title || !pyTruthyStr word_range) = true
  · have hsess : (runPipeline env title word_range cl prev).session = prev := by
      simp [runPipeline, hV]
    exact ⟨fun _ => hsess, fun h => absurd hsess h⟩
  · have hV' : (!pyTruthyStr title || !pyTruthyStr word_range) = false := by
      simpa using hV
    cases hK : pyTruthy env.openai_api_key with
    | false =>
      have hsess : (runPipeline env title word_range cl prev).session = prev := by
        simp [runPipeline, hV', hK]
      exact ⟨fun _ => hsess, fun h => absurd hsess h⟩
    | true =>
      cases hO : pyTruthy (generate_outline title word_range cl.outlineCall).value with
      | false =>
        have hsess : (runPipeline env title word_range cl prev).session = prev := by
          simp [runPipeline, hV', hK, hO]
        exact ⟨fun _ => hsess, fun h => absurd hsess h⟩
      | true =>
        cases hA : pyTruthy (write_article title
            ((generate_outline title word_range cl.outlineCall).value.getD "")
            word_range cl.articleCall).value with
        | false =>
          have hsess : (runPipeline env title word_range cl prev).session = prev := by
            simp [runPipeline, hV', hK, hO, hA]
          exact ⟨fun _ => hsess, fun h => absurd hsess h⟩
        | true =>
          constructor
          · rintro (h | h) <;> cases h
          · intro _; exact ⟨rfl, rfl⟩

/-- C5 (witness): a concrete article-failure run leaves the previously
stored result in place. -/
theorem fatal_error_atomicity_witness :
    (runPipeline ⟨some "sk", none⟩ "T" "800-1000"
        ⟨Except.ok "O", Except.error "boom", Except.error "down",
          Except.ok "https://d", Except.ok "R"⟩
        (some { outline := some (some "oldO"), article := some (some "oldA"),
                image_url := some none, image_source := some none,
                resources := none })).session
      = some { outline := some (some "oldO"), article := some (some "oldA"),
               image_url := some none, image_source := some none,
               resources := none } :=
  (fatal_error_atomicity ⟨some "sk", none⟩ "T" "800-1000"
    ⟨Except.ok "O", Except.error "boom", Except.error "down",
      Except.ok "https://d", Except.ok "R"⟩
    (some { outline := some (some "oldO"), article := some (some "oldA"),
            image_url := some none, image_source := some none,
            resources := none })).1 (Or.inr (by decide))

/-- C6: every content dict a run builds satisfies the data-model
invariants: an article slot is only ever present together with an outline
slot, the two image slots are present together, and one holds a string
exactly when the other does. -/
theorem result_invariants (env : Env) (title word_range : String)
    (cl : Clients) (prev : Option Content) (c : Content)
    (h : (runPipeline env title word_range cl prev).localContent = some c) :
    (c.article.isSome → c.outline.isSome)
      ∧ (c.image_url.isSome ↔ c.image_source.isSome)
      ∧ ((∃ s, c.image_url = some (some s)) ↔ ∃ s, c.image_source = some (some s)) := by
  by_cases hV : (!pyTruthyStr title || !pyTruthyStr word_range) = true
  · simp [runPipeline, hV] at h
  · have hV' : (!pyTruthyStr title || !pyTruthyStr word_range) = false := by
      simpa using hV
    cases hK : pyTruthy env.openai_api_key with
    | false => simp [runPipeline, hV', hK] at h
    | true =>
      cases hO : pyTruthy (generate_outline title word_range cl.outlineCall).value with
      | false =>
        simp [runPipeline, hV', hK, hO] at h
        subst h
        simp
      | true =>
        cases hA : pyTruthy (write_article title
            ((generate_outline title word_range cl.outlineCall).value.getD "")
            word_range cl.articleCall).value with
        | false =>
          simp [runPipeline, hV', hK, hO, hA] at h
          subst h
          simp
        | true =>
          cases hI : pyTruthy (generate_header_image title env.freepik_api_key
              cl.freepikTransport cl.dalleCall).image_url with
          | false =>
            cases hR : pyTruthy (suggest_resources title cl.resourcesCall).value with
            | false =>
              simp [runPipeline, hV', hK, hO, hA, hI, hR] at h
              subst h
              simp
            | true =>
              simp [runPipeline, hV', hK, hO, hA, hI, hR] at h
              subst h
              simp
          | true =>
            obtain ⟨⟨u, hu, hune⟩, lbl, hlbl⟩ := image_source_some_of_truthy title
              env.freepik_api_key cl.freepikTransport cl.dalleCall hI
            cases hR : pyTruthy (suggest_resources title cl.resourcesCall).value with
            | false =>
              simp [runPipeline, hV', hK, hO, hA, hI, hR] at h
              subst h
              simp [hu, hlbl]
            | true =>
              simp [runPipeline, hV', hK, hO, hA, hI, hR] at h
              subst h
              simp [hu, hlbl]

/-- The content dict a fully successful concrete run builds, used to
witness the data-model invariants. -/
def fullRunContent : Content :=
  { outline := some (some "O"), article := some (some "A"),
    image_url := some (some "https://d"), image_source := some (some "DALL-E"),
    resources := some (some "R") }

/-- C6 (witness): the invariants at a concrete fully successful run. -/
theorem result_invariants_witness :
    (fullRunContent.article.isSome → fullRunContent.outline.isSome)
      ∧ (fullRunContent.image_url.isSome ↔ fullRunContent.image_source.isSome)
      ∧ ((∃ s, fullRunContent.image_url = some (some s))
        ↔ ∃ s, fullRunContent.image_source = some (some s)) :=
  result_invariants ⟨some "sk", none⟩ "T" "800-1000"
    ⟨Except.ok "O", Except.ok "A", Except.error "down",
      Except.ok "https://d", Except.ok "R"⟩ none
    fullRunContent (by decide)

/-- C8: with an empty title, an empty word range, or a falsy OpenAI
credential, the run makes no external call, builds no content dict,
leaves the session untouched, and emits exactly one inline error. -/
theorem config_error_no_calls (env : Env) (title word_range : String)
    (cl : Clients) (prev : Option Content)
    (h : title = "" ∨ word_range = "" ∨ pyTruthy env.openai_api_key = false) :
    (runPipeline env title word_range cl prev).calls = []
      ∧ (runPipeline env title word_range cl prev).localContent = none
      ∧ (runPipeline env title word_range cl prev).session = prev
      ∧ ∃ s, (runPipeline env title word_range cl prev).msgs = [Msg.error s] := by
  rcases h with h | h | h
  · subst h; simp [runPipeline, pyTruthyStr]
  · subst h; simp [runPipeline, pyTruthyStr]
  · by_cases hV : (!pyTruthyStr title || !pyTruthyStr word_range) = true
    · simp [runPipeline, hV]
    · have hV' : (!pyTruthyStr title || !pyTruthyStr word_range) = false := by
        simpa using hV
      simp [runPipeline, hV', h]

/-- C8 (witness): a concrete missing-credential run. -/
theorem config_error_no_calls_witness :
    (runPipeline ⟨none, none⟩ "T" "800-1000"
        ⟨Except.ok "O", Except.ok "A", Except.error "down",
          Except.ok "https://d", Except.ok "R"⟩ none).calls = []
      ∧ (runPipeline ⟨none, none⟩ "T" "800-1000"
          ⟨Except.ok "O", Except.ok "A", Except.error "down",
            Except.ok "https://d", Except.ok "R"⟩ none).localContent = none
      ∧ (runPipeline ⟨none, none⟩ "T" "800-1000"
          ⟨Except.ok "O", Except.ok "A", Except.error "down",
            Except.ok "https://d", Except.ok "R"⟩ none).session = none
      ∧ ∃ s, (runPipeline ⟨none, none⟩ "T" "800-1000"
          ⟨Except.ok "O", Except.ok "A", Except.error "down",
            Except.ok "https://d", Except.ok "R"⟩ none).msgs = [Msg.error s] :=
  config_error_no_calls ⟨none, none⟩ "T" "800-1000"
    ⟨Except.ok "O", Except.ok "A", Except.error "down",
      Except.ok "https://d", Except.ok "R"⟩ none (Or.inr (Or.inr (by decide)))

/-- C9: on a run that reaches the resources step, the outline, article
and image slots of both the run's content dict and the published session
result do not depend on the outcome of the resources call. -/
theorem resources_failure_frame (env : Env) (title word_range : String)
    (oCall aCall : Except String String) (fTr : Except String HttpResp)
    (dCall : Except String String) (res res' : Except String String)
    (prev : Option Content)
    (hT : pyTruthyStr title = true) (hW : pyTruthyStr word_range = true)
    (hK : pyTruthy env.openai_api_key = true)
    (hO : pyTruthy (generate_outline title word_range oCall).value = true)
    (hA : pyTruthy (write_article title
        ((generate_outline title word_range oCall).value.getD "")
        word_range aCall).value = true) :
    Option.map Content.frame
        (runPipeline env title word_range ⟨oCall, aCall, fTr, dCall, res⟩ prev).session
      = Option.map Content.frame
        (runPipeline env title word_range ⟨oCall, aCall, fTr, dCall, res'⟩ prev).session
    ∧ Option.map Content.frame
        (runPipeline env title word_range ⟨oCall, aCall, fTr, dCall, res⟩ prev).localContent
      = Option.map Content.frame
        (runPipeline env title word_range ⟨oCall, aCall, fTr, dCall, res'⟩ prev).localContent := by
  constructor <;> simp [runPipeline, hT, hW, hK, hO, hA, frame_ite_resources]

/-- C9 (witness): the frame equality at a concrete pair of runs differing
only in the resources outcome. -/
theorem resources_failure_frame_witness :
    Option.map Content.frame
        (runPipeline ⟨some "sk", none⟩ "T" "800-1000"
          ⟨Except.ok "O", Except.ok "A", Except.error "down",
            Except.ok "https://d", Except.ok "R"⟩ none).session
      = Option.map Content.frame
        (runPipeline ⟨some "sk", none⟩ "T" "800-1000"
          ⟨Except.ok "O", Except.ok "A", Except.error "down",
            Except.ok "https://d", Except.error "boom"⟩ none).session
    ∧ Option.map Content.frame
        (runPipeline ⟨some "sk", none⟩ "T" "800-1000"
          ⟨Except.ok "O", Except.ok "A", Except.error "down",
            Except.ok "https://d", Except.ok "R"⟩ none).localContent
      = Option.map Content.frame
        (runPipeline ⟨some "sk", none⟩ "T" "800-1000"
          ⟨Except.ok "O", Except.ok "A", Except.error "down",
            Except.ok "https://d", Except.error "boom"⟩ none).localContent :=
  resources_failure_frame ⟨some "sk", none⟩ "T" "800-1000"
    (Except.ok "O") (Except.ok "A") (Except.error "down")
    (Except.ok "https://d") (Except.ok "R") (Except.error "boom") none
    (by decide) (by decide) (by decide) (by decide) (by decide)

/-- C10: when both image tiers fail and the resources call fails on an
otherwise successful run, the published dict holds the `image_url` and
`image_source` keys explicitly set to `None`, the `resources` key is
entirely absent, and the run is still reported as complete. -/
theorem absent_field_asymmetry (env : Env) (title word_range : String)
    (cl : Clients) (prev : Option Content)
    (hT : pyTruthyStr title = true) (hW : pyTruthyStr word_range = true)
    (hK : pyTruthy env.openai_api_key = true)
    (hO : pyTruthy (generate_outline title word_range cl.outlineCall).value = true)
    (hA : pyTruthy (write_article title
        ((generate_outline title word_range cl.outlineCall).value.getD "")
        word_range cl.articleCall).value = true)
    (hF : pyTruthy (get_freepik_image title env.freepik_api_key
        cl.freepikTransport).value = false)
    (hD : pyTruthy (generate_dalle_image title cl.dalleCall).value = false)
    (hR : pyTruthy (suggest_resources title cl.resourcesCall).value = false) :
    ∃ c, (runPipeline env title word_range cl prev).session = some c
      ∧ (runPipeline env title word_range cl prev).localContent = some c
      ∧ c.image_url = some none ∧ c.image_source = some none ∧ c.resources = none
      ∧ Msg.success "✅ Article generation complete!"
          ∈ (runPipeline env title word_range cl prev).msgs := by
  have himg : pyTruthy (generate_header_image title env.freepik_api_key
      cl.freepikTransport cl.dalleCall).image_url = false := by
    rw [header_image_url_none title env.freepik_api_key cl.freepikTransport
      cl.dalleCall hF hD]
    rfl
  refine ⟨{ outline := some (generate_outline title word_range cl.outlineCall).value,
            article := some (write_article title
              ((generate_outline title word_range cl.outlineCall).value.getD "")
              word_range cl.articleCall).value,
            image_url := some none, image_source := some none, resources := none },
    ?_, ?_, rfl, rfl, rfl, ?_⟩ <;>
      simp [runPipeline, hT, hW, hK, hO, hA, himg, hR]

/-- C10 (witness): a concrete run with both image tiers and the
resources call failing. -/
theorem absent_field_asymmetry_witness :
    ∃ c, (runPipeline ⟨some "sk", none⟩ "T" "800-1000"
        ⟨Except.ok "O", Except.ok "A", Except.error "down",
          Except.error "boom", Except.error "boom2"⟩ none).session = some c
      ∧ (runPipeline ⟨some "sk", none⟩ "T" "800-1000"
          ⟨Except.ok "O", Except.ok "A", Except.error "down",
            Except.error "boom", Except.error "boom2"⟩ none).localContent = some c
      ∧ c.image_url = some none ∧ c.image_source = some none ∧ c.resources = none
      ∧ Msg.success "✅ Article generation complete!"
          ∈ (runPipeline ⟨some "sk", none⟩ "T" "800-1000"
          ⟨Except.ok "O", Except.ok "A", Except.error "down",
            Except.error "boom", Except.error "boom2"⟩ none).msgs :=
  absent_field_asymmetry ⟨some "sk", none⟩ "T" "800-1000"
    ⟨Except.ok "O", Except.ok "A", Except.error "down",
      Except.error "boom", Except.error "boom2"⟩ none
    (by decide) (by decide) (by decide) (by decide) (by decide)
    (by decide) (by decide) (by decide)

end ArticleAgent
